import Mathlib

/-!
Verification development for the claudeUIMCP control-plane server.

The JavaScript sources are shallowly embedded as executable Lean
definitions.  JavaScript objects produced by `JSON.parse` are modelled by
the inductive `Json` type; the wire text itself is modelled by `Raw`,
where `Raw.wellFormed j` stands for a text that `JSON.parse` accepts with
value `j` and `Raw.malformed` for a text it rejects.  `JSON.stringify` of
an acyclic JSON tree always succeeds and `JSON.parse` of its output
returns an equal value, so serialization is modelled as producing the
`Raw.wellFormed` form of the value being serialized.

Stateful components (ConnectionManager, the server dispatch loop) are
modelled by explicit state passing; observable effects (socket writes,
socket closes, emitted events) are collected in an output list.  Transport
behaviour is part of the modelled state: a `Socket` records its
`readyState` and whether a `send` call on it throws.
-/

namespace MCP

/-- JSON values as produced by `JSON.parse`: null, booleans, numbers,
strings, arrays and objects (ordered field lists, as in JS). -/
inductive Json : Type
  | null : Json
  | bool (b : Bool) : Json
  | num (n : Int) : Json
  | str (s : String) : Json
  | arr (xs : List Json) : Json
  | obj (fields : List (String × Json)) : Json

/-- Generic first-match association-list lookup (JS `Map.get`, and property
lookup on objects whose keys are unique). -/
def lookupKV {α : Type} : List (String × α) → String → Option α
  | [], _ => none
  | (k, v) :: rest, key => if k = key then some v else lookupKV rest key

/-- Last-match association-list lookup: after `JSON.parse`, a duplicated
object key holds the value of its last occurrence. -/
def lookupLastKV {α : Type} : List (String × α) → String → Option α
  | [], _ => none
  | (k, v) :: rest, key =>
    match lookupLastKV rest key with
    | some r => some r
    | none => if k = key then some v else none

/-- JS property read `value[key]`: defined on objects, `undefined`
(here `none`) on every other JSON value, including arrays. -/
def Json.getField : Json → String → Option Json
  | Json.obj fields, key => lookupLastKV fields key
  | _, _ => none

/-- JS truthiness of an optional JSON value (`none` models `undefined`):
`undefined`, `null`, `false`, `0` and the empty string are falsy. -/
def jsTruthy : Option Json → Bool
  | none => false
  | some Json.null => false
  | some (Json.bool b) => b
  | some (Json.num n) => n != 0
  | some (Json.str s) => s != ""
  | some (Json.arr _) => true
  | some (Json.obj _) => true

/-- JS test `value && typeof value === 'object'` on a parsed JSON value:
true exactly for objects and arrays (`null` is falsy). -/
def jsObjectLike : Json → Bool
  | Json.obj _ => true
  | Json.arr _ => true
  | _ => false

/-- JS `String.prototype.startsWith`, as a structurally recursive check
on the character lists. -/
def jsStartsWith (s p : String) : Bool :=
  p.data.isPrefixOf s.data

/-- Characters before the first dot, structurally recursive. -/
def takeUntilDot : List Char → List Char
  | [] => []
  | c :: rest => if c = '.' then [] else c :: takeUntilDot rest

/-- Raw wire input: `Raw.wellFormed j` is a text accepted by `JSON.parse`
with value `j`; `Raw.malformed` is a text `JSON.parse` throws on. -/
inductive Raw : Type
  | malformed : Raw
  | wellFormed (j : Json) : Raw

/-- MessageProtocol.validateMessage from src/unnamed/part_005: rejects
non-objects and messages whose `type` property is falsy; an unknown type
value is merely logged, never rejected. -/
def validateMessage (msg : Json) : Bool :=
  jsObjectLike msg && jsTruthy (msg.getField "type")

/-- MessageProtocol.parseMessage from src/unnamed/part_005: JSON-parse the
raw input (returning null on a parse error, modelled by `none`), then
validate when validation is enabled. -/
def parseMessage (validateMessages : Bool) (raw : Raw) : Option Json :=
  match raw with
  | Raw.malformed => none
  | Raw.wellFormed j =>
    if validateMessages then
      if validateMessage j then some j else none
    else some j

/-- MessageProtocol.createMessage from src/unnamed/part_005 (with the
default empty `metadata`, which is how every modelled caller uses it):
an object with `type`, `version`, `timestamp` and `data` fields. -/
def createMessage (version : String) (type : String) (data : Json) (now : Nat) : Json :=
  Json.obj [("type", Json.str type), ("version", Json.str version),
            ("timestamp", Json.num (now : Int)), ("data", data)]

/-- Payload of MessageProtocol.createErrorMessage: `{code, message,
details}` with the default empty `details`. -/
def errorData (code : Int) (message : String) : Json :=
  Json.obj [("code", Json.num code), ("message", Json.str message),
            ("details", Json.obj [])]

/-- MessageProtocol.createErrorMessage from src/unnamed/part_005: a
`system.error` message with `{code, message, details}` data. -/
def createErrorMessage (version : String) (code : Int) (message : String) (now : Nat) : Json :=
  createMessage version "system.error" (errorData code message) now

/-- MessageProtocol.serializeMessage from src/unnamed/part_005:
`JSON.stringify` never throws on an acyclic JSON tree, and the produced
text parses back to the same value, so the serialized form is modelled as
the well-formed raw text denoting that value. -/
def serializeMessage (msg : Json) : Option Raw :=
  some (Raw.wellFormed msg)

/-- Error code table ERROR_CODES from src/unnamed/part_005. -/
def errInvalidMessage : Int := 100

/-- ERROR_CODES.UNAUTHORIZED. -/
def errUnauthorized : Int := 200

/-- ERROR_CODES.SERVER_ERROR. -/
def errServerError : Int := 500

/-!
ConnectionManager (src/src/utils/connection-manager.js).

The connection map is an insertion-ordered association list keyed by the
connection id (JS `Map` keys are unique, and `crypto.randomUUID` ids are
modelled by naturals supplied by the caller).  Socket behaviour is part of
the state: `Socket.failing` records whether `socket.send` throws, and
`Socket.readyState` is the WebSocket ready state (1 = OPEN).
-/

/-- Transport handle: ready state plus whether `send` calls on it throw. -/
structure Socket where
  readyState : Nat := 1
  failing : Bool := false

/-- Per-connection stats object. -/
structure Stats where
  messagesReceived : Nat := 0
  messagesSent : Nat := 0
  errors : Nat := 0

/-- Connection metadata created by ConnectionManager.addConnection. -/
structure Connection where
  socket : Socket := {}
  ipAddress : String := "unknown"
  userAgent : String := "unknown"
  connected : Nat := 0
  lastActivity : Nat := 0
  isAuthenticated : Bool := false
  clientInfo : List (String × Json) := []
  stats : Stats := {}

/-- ConnectionManager state: the connection map plus the configuration
read in the constructor (maxConnections, idleTimeout, authRequired,
token expiration and the protocol version of its MessageProtocol). -/
structure CMState where
  connections : List (Nat × Connection) := []
  maxConnections : Nat := 50
  idleTimeout : Nat := 300000
  authRequired : Bool := false
  tokenExpiration : Nat := 86400000
  protoVersion : String := "1.0"

/-- Events emitted by the ConnectionManager (`this.emit(...)`). -/
inductive CMEvent : Type
  | connection (id : Nat)
  | disconnection (id : Nat)
  | message (id : Nat) (msg : Json)
  | authenticated (id : Nat)
  | clientRegistered (id : Nat)
  | unknownMessage (id : Nat)

/-- Observable effects: socket writes and closes on registered
connections, writes and closes on a not-yet-registered socket (the
over-capacity rejection path), and emitted events. -/
inductive Out : Type
  | send (id : Nat) (msg : Json)
  | closeConn (id : Nat)
  | rawSend (msg : Json)
  | rawClose
  | event (e : CMEvent)

/-- Lookup in the connection map (JS `Map.get`). -/
def lookupConn : List (Nat × Connection) → Nat → Option Connection
  | [], _ => none
  | (k, c) :: rest, id => if k = id then some c else lookupConn rest id

/-- In-place update of the entry with the given key; the JS code mutates
the stored connection object, which under unique `Map` keys is the entry
at that key. -/
def updateConn : List (Nat × Connection) → Nat → (Connection → Connection) →
    List (Nat × Connection)
  | [], _, _ => []
  | (k, c) :: rest, id, f =>
    if k = id then (k, f c) :: updateConn rest id f
    else (k, c) :: updateConn rest id f

/-- Deletion from the connection map (JS `Map.delete`; under unique keys,
removing every entry at the key equals removing the single entry). -/
def eraseConn : List (Nat × Connection) → Nat → List (Nat × Connection)
  | [], _ => []
  | (k, c) :: rest, id =>
    if k = id then eraseConn rest id else (k, c) :: eraseConn rest id

/-- ConnectionManager.sendMessage lines 285-315: create and serialize the
message, then write it to the socket; a throwing write increments the
error stat and returns false; a successful write refreshes `lastActivity`,
increments the sent counter and returns true.  Serialization of a JSON
tree never fails, so the failed-serialization early return is vacuous. -/
def sendMessage (st : CMState) (cid : Nat) (type : String) (data : Json) (now : Nat) :
    CMState × List Out × Bool :=
  match lookupConn st.connections cid with
  | none => (st, [], false)
  | some conn =>
    let msg := createMessage st.protoVersion type data now
    if conn.socket.failing then
      ({st with connections := (updateConn st.connections cid
          (fun c => {c with stats := {c.stats with errors := c.stats.errors + 1}}))},
       [], false)
    else
      ({st with connections := (updateConn st.connections cid
          (fun c => {c with lastActivity := now,
                            stats := {c.stats with messagesSent := c.stats.messagesSent + 1}}))},
       [Out.send cid msg], true)

/-- ConnectionManager.sendError lines 320-326: a `system.error` send with
`{code, message, details}` data (default empty details). -/
def sendError (st : CMState) (cid : Nat) (code : Int) (message : String) (now : Nat) :
    CMState × List Out × Bool :=
  sendMessage st cid "system.error" (errorData code message) now

/-- ConnectionManager.addConnection lines 39-112: at or above capacity,
write a SERVER_ERROR message to the new socket and close it (a throwing
write skips the close, both caught) and return null; otherwise store fresh
metadata with `isAuthenticated = !authRequired` and emit a connection
event.  `newId` stands for the freshly generated UUID. -/
def addConnection (st : CMState) (sock : Socket) (ipAddress userAgent : String)
    (now : Nat) (newId : Nat) : CMState × List Out × Option Nat :=
  if st.connections.length ≥ st.maxConnections then
    let outs := if sock.failing then []
      else [Out.rawSend (createErrorMessage st.protoVersion errServerError
              "Maximum connections reached" now), Out.rawClose]
    (st, outs, none)
  else
    let conn : Connection :=
      { socket := sock, ipAddress := ipAddress, userAgent := userAgent,
        connected := now, lastActivity := now,
        isAuthenticated := !st.authRequired, clientInfo := [], stats := {} }
    ({st with connections := st.connections ++ [(newId, conn)]},
     [Out.event (CMEvent.connection newId)], some newId)

/-- ConnectionManager.removeConnection lines 117-142: a no-op returning
false when the id is unknown; otherwise close the socket if still OPEN,
delete the entry, emit one disconnection event and return true. -/
def removeConnection (st : CMState) (cid : Nat) : CMState × List Out × Bool :=
  match lookupConn st.connections cid with
  | none => (st, [], false)
  | some conn =>
    let closeOuts := if conn.socket.readyState = 1 then [Out.closeConn cid] else []
    ({st with connections := eraseConn st.connections cid},
     closeOuts ++ [Out.event (CMEvent.disconnection cid)], true)

/-- Increment of the error stat (`connection.stats.errors++`). -/
def incErrors (st : CMState) (cid : Nat) : CMState :=
  {st with connections := (updateConn st.connections cid
    (fun c => {c with stats := {c.stats with errors := c.stats.errors + 1}}))}

/-- ConnectionManager.handleAuthRequest lines 235-252: unconditionally
mark the connection authenticated, send `system.auth_response` with
success, timestamp and expiry, and emit an authenticated event. -/
def handleAuthRequest (st : CMState) (cid : Nat) (now : Nat) : CMState × List Out :=
  let st1 := {st with connections := (updateConn st.connections cid
    (fun c => {c with isAuthenticated := true}))}
  let r := sendMessage st1 cid "system.auth_response"
    (Json.obj [("success", Json.bool true), ("timestamp", Json.num (now : Int)),
               ("expiresAt", Json.num ((now + st.tokenExpiration : Nat) : Int))]) now
  (r.1, r.2.1 ++ [Out.event (CMEvent.authenticated cid)])

/-- Right-biased object merge (JS object spread / `Object.assign`): later
entries overwrite the value at an existing key in place, or append. -/
def insertKV {α : Type} : List (String × α) → String × α → List (String × α)
  | [], kv => [kv]
  | (k, v) :: rest, kv =>
    if k = kv.1 then (k, kv.2) :: rest else (k, v) :: insertKV rest kv

/-- Fold of `insertKV`: `objAssign base extra` is `{...base, ...extra}`. -/
def objAssign {α : Type} (base extra : List (String × α)) : List (String × α) :=
  extra.foldl insertKV base

/-- ConnectionManager.handleClientRegistration lines 257-280: spread the
message data into `clientInfo` (a non-object `data` contributes no
string-keyed fields), send `system.register_response` and emit an event. -/
def handleClientRegistration (st : CMState) (cid : Nat) (msg : Json) (now : Nat) :
    CMState × List Out :=
  let st1 := {st with connections := (updateConn st.connections cid
    (fun c => {c with clientInfo :=
      match msg.getField "data" with
      | some (Json.obj fs) => objAssign c.clientInfo fs
      | _ => c.clientInfo}))}
  let r := sendMessage st1 cid "system.register_response"
    (Json.obj [("success", Json.bool true), ("id", Json.num (cid : Int)),
               ("timestamp", Json.num (now : Int))]) now
  (r.1, r.2.1 ++ [Out.event (CMEvent.clientRegistered cid)])

/-- ConnectionManager.handleSystemMessage lines 202-230, reached with the
parsed message and its string type `s`: ping is answered with a pong
echoing the caller's data (an absent `data` property serializes to an
absent `echo` field), auth and register are delegated, and any other
system type emits an unknownMessage event. -/
def handleSystemMessage (st : CMState) (cid : Nat) (msg : Json) (s : String) (now : Nat) :
    CMState × List Out :=
  if s = "system.ping" then
    let payload := Json.obj ([("timestamp", Json.num (now : Int))] ++
      (match msg.getField "data" with
       | some d => [("echo", d)]
       | none => []))
    let r := sendMessage st cid "system.pong" payload now
    (r.1, r.2.1)
  else if s = "system.auth" then handleAuthRequest st cid now
  else if s = "system.register" then handleClientRegistration st cid msg now
  else (st, [Out.event (CMEvent.unknownMessage cid)])

/-- Strict-equality test `message.type === 'system.auth'` on the value of
the `type` property. -/
def isAuthType : Option Json → Bool
  | some (Json.str s) => s = "system.auth"
  | _ => false

/-- ConnectionManager.handleMessage lines 147-197: unknown connection ids
are dropped; a failed parse answers with an INVALID_MESSAGE error and
bumps the error stat; with auth required and the connection not
authenticated, anything but `system.auth` answers with an UNAUTHORIZED
error and bumps the error stat; `system.`-prefixed types go to the system
handler; everything else emits a message event for external dispatch.
`none` models the TypeError thrown by `message.type.startsWith` when the
(truthy) type value is not a string. -/
def handleMessage (st : CMState) (cid : Nat) (raw : Raw) (now : Nat) :
    Option (CMState × List Out) :=
  match lookupConn st.connections cid with
  | none => some (st, [])
  | some conn =>
    match parseMessage true raw with
    | none =>
      let r := sendError st cid errInvalidMessage "Invalid message format" now
      some (incErrors r.1 cid, r.2.1)
    | some msg =>
      if st.authRequired && !conn.isAuthenticated && !isAuthType (msg.getField "type") then
        let r := sendError st cid errUnauthorized "Authentication required" now
        some (incErrors r.1 cid, r.2.1)
      else
        match msg.getField "type" with
        | some (Json.str s) =>
          if jsStartsWith s "system." then some (handleSystemMessage st cid msg s now)
          else some (st, [Out.event (CMEvent.message cid msg)])
        | _ => none

/-- Body of the liveness sweep loop in ConnectionManager.pingConnections
lines 351-367 for one connection id: remove it when idle longer than the
timeout, otherwise send it a `system.ping`. -/
def pingStep (now : Nat) (acc : CMState × List Out) (cid : Nat) : CMState × List Out :=
  match lookupConn acc.1.connections cid with
  | none => acc
  | some conn =>
    if (now : Int) - (conn.lastActivity : Int) > (acc.1.idleTimeout : Int) then
      let r := removeConnection acc.1 cid
      (r.1, acc.2 ++ r.2.1)
    else
      let r := sendMessage acc.1 cid "system.ping"
        (Json.obj [("timestamp", Json.num (now : Int))]) now
      (r.1, acc.2 ++ r.2.1)

/-- ConnectionManager.pingConnections lines 351-367: iterate the sweep
body over the connections in map order (deleting the entry being visited
is safe during JS `Map` iteration, so the iteration order is the key list
taken at entry). -/
def pingConnections (st : CMState) (now : Nat) : CMState × List Out :=
  (st.connections.map Prod.fst).foldl (pingStep now) (st, [])

/-- Inbound socket `message` listener installed by addConnection lines
84-88: refresh `lastActivity`, count the message, then handle it. -/
def onSocketMessage (st : CMState) (cid : Nat) (raw : Raw) (now : Nat) :
    Option (CMState × List Out) :=
  let st1 := {st with connections := (updateConn st.connections cid
    (fun c => {c with lastActivity := now,
                      stats := {c.stats with messagesReceived := c.stats.messagesReceived + 1}}))}
  handleMessage st1 cid raw now

/-!
Server-level dispatch: MCPServer.handleMessage (src/src/server.js lines
232-275), PluginManager.callPluginMethod (src/src/utils/plugin-manager.js
lines 253-269) and MessageHandler.processMessage
(src/src/utils/message-handler.js lines 78-128).

The envelope reaching this layer has already passed parsing, so its type
is a string; handlers and plugin hooks are arbitrary functions whose
single call either returns a value or throws.
-/

/-- Envelope as seen by the server dispatch path. -/
structure SMsg where
  type : String
  data : Json := Json.null

/-- Dispatch context `{connectionId, server, timestamp}` built by
MCPServer.handleMessage (the server handle itself is not modelled). -/
structure Ctx where
  connectionId : Nat
  timestamp : Nat

/-- Result of one plugin-hook call: the returned value, or a thrown
error. -/
inductive HookOutcome : Type
  | returns (v : Json)
  | throws (emsg : String)

/-- A loaded plugin as stored by the PluginManager: its unique name,
enabled flag, and its optional `handleMessage` capability. -/
structure Plugin where
  name : String
  enabled : Bool := true
  hook : Option (SMsg → Ctx → HookOutcome) := none

/-- One entry of the list returned by callPluginMethod: `{name, result}`
on a normal return, `{name, error}` when the hook threw. -/
inductive PResult : Type
  | ok (name : String) (v : Json)
  | err (name : String) (emsg : String)

/-- PluginManager.callPluginMethod lines 253-269 for the `handleMessage`
hook: every enabled plugin exposing the hook is called in registration
order; a throw is caught, logged and recorded, never stopping the loop.
The second component records which plugins' hooks were actually called. -/
def callPluginMethod : List Plugin → SMsg → Ctx → List PResult × List String
  | [], _, _ => ([], [])
  | p :: rest, m, ctx =>
    if p.enabled then
      match p.hook with
      | some h =>
        let r := match h m ctx with
          | HookOutcome.returns v => PResult.ok p.name v
          | HookOutcome.throws e => PResult.err p.name e
        let tail := callPluginMethod rest m ctx
        (r :: tail.1, p.name :: tail.2)
      | none => callPluginMethod rest m ctx
    else callPluginMethod rest m ctx

/-- The check `result.result === true` applied to one callPluginMethod
entry (an error entry has no `result` property, hence is never `true`). -/
def isTrueResult : PResult → Bool
  | PResult.ok _ (Json.bool true) => true
  | _ => false

/-- A response object returned by a message handler: `{type, data}`. -/
structure Response where
  type : String
  data : Json

/-- Result of one handler call: the returned response (possibly null or
undefined, modelled by `none`), or a thrown error. -/
inductive HandlerOutcome : Type
  | ret (r : Option Response)
  | throws (emsg : String)

/-- A registered message handler callback. -/
def Handler : Type := SMsg → Ctx → HandlerOutcome

/-- MessageHandler.registerHandler line 53-60: `Map.set`, overwriting any
prior handler at the same key (last-writer-wins). -/
def registerHandler (hs : List (String × Handler)) (t : String) (h : Handler) :
    List (String × Handler) :=
  insertKV hs (t, h)

/-- First dot-segment of a type string (`message.type.split('.')[0]`). -/
def namespaceOf (t : String) : String :=
  String.mk (takeUntilDot t.data)

/-- The 500 response built in the catch block of
MessageHandler.processMessage lines 118-126. -/
def err500Response (emsg : String) (now : Nat) : Response :=
  { type := "error",
    data := Json.obj [("code", Json.num 500),
                      ("message", Json.str "Error processing message"),
                      ("error", Json.str emsg),
                      ("timestamp", Json.num (now : Int))] }

/-- The 404 response built when no handler matches, lines 103-110. -/
def err404Response (t : String) (now : Nat) : Response :=
  { type := "error",
    data := Json.obj [("code", Json.num 404),
                      ("message", Json.str ("No handler found for message type: " ++ t)),
                      ("timestamp", Json.num (now : Int))] }

/-- Events emitted by the MessageHandler. -/
inductive MHEvent : Type
  | unhandled
  | errorEvent

/-- MessageHandler.processMessage lines 78-128: a falsy type yields null;
otherwise try the exact-type handler, then the first-dot-segment
namespace handler; a throwing handler is caught and converted to the 500
response; with no match, emit `unhandled` and return the 404 response.
The middle component records which registry key, if any, was executed. -/
def processMessage (hs : List (String × Handler)) (m : SMsg) (ctx : Ctx) (now : Nat) :
    Option Response × Option String × List MHEvent :=
  if m.type = "" then (none, none, [])
  else
    match lookupKV hs m.type with
    | some h =>
      match h m ctx with
      | HandlerOutcome.ret r => (r, some m.type, [])
      | HandlerOutcome.throws e => (some (err500Response e now), some m.type, [MHEvent.errorEvent])
    | none =>
      match lookupKV hs (namespaceOf m.type) with
      | some h =>
        match h m ctx with
        | HandlerOutcome.ret r => (r, some (namespaceOf m.type), [])
        | HandlerOutcome.throws e =>
          (some (err500Response e now), some (namespaceOf m.type), [MHEvent.errorEvent])
      | none => (some (err404Response m.type now), none, [MHEvent.unhandled])

/-- Outcome of one MCPServer.handleMessage dispatch: the updated
ConnectionManager state, the socket/event outputs produced while sending
the response, the plugins whose hooks were invoked, the handler-registry
key executed (if any), and the response produced (if any). -/
structure DispatchResult where
  cm : CMState
  outs : List Out
  hooksInvoked : List String
  handlerInvoked : Option String
  response : Option Response

/-- MCPServer.handleMessage lines 232-275: call every enabled plugin's
`handleMessage` hook; if some result is strictly `true` the message is
considered handled and neither the handler registry nor a response send
runs; otherwise process with the MessageHandler and send any truthy
response back over the ConnectionManager.  All exception paths inside the
plugin loop and the registry are already caught there, so this function
is total. -/
def serverHandleMessage (ps : List Plugin) (hs : List (String × Handler))
    (cm : CMState) (cid : Nat) (m : SMsg) (now : Nat) : DispatchResult :=
  let ctx : Ctx := { connectionId := cid, timestamp := now }
  let pr := callPluginMethod ps m ctx
  if pr.1.any isTrueResult then
    { cm := cm, outs := [], hooksInvoked := pr.2, handlerInvoked := none, response := none }
  else
    let res := processMessage hs m ctx now
    match res.1 with
    | some r =>
      let s := sendMessage cm cid r.type r.data now
      { cm := s.1, outs := s.2.1, hooksInvoked := pr.2,
        handlerInvoked := res.2.1, response := some r }
    | none =>
      { cm := cm, outs := [], hooksInvoked := pr.2,
        handlerInvoked := res.2.1, response := none }

/-!
ProxyHandler (src/unnamed/part_004, lines 39-102).
-/

/-- A registered proxy route as stored by ProxyHandler.registerRoute:
base URL, endpoint aliases, default headers, timeout and an optional auth
callback returning extra headers (modelled as a pure function of the
route name and endpoint). -/
structure ProxyRoute where
  baseUrl : String
  endpoints : List (String × String) := []
  headers : List (String × String) := []
  timeout : Nat := 30000
  authHandler : Option (String → String → List (String × String)) := none

/-- ProxyHandler.registerRoute lines 39-53: rejects a configuration with
an absent (falsy) name or baseUrl, otherwise stores the route under the
name, overwriting any previous registration. -/
def registerRoute (routes : List (String × ProxyRoute)) (name : String)
    (config : ProxyRoute) : Except String (List (String × ProxyRoute)) :=
  if name = "" ∨ config.baseUrl = "" then Except.error "Invalid route configuration"
  else Except.ok (insertKV routes (name, config))

/-- The outbound HTTP request as assembled by forwardRequest and handed
to makeRequest; `new URL(targetEndpoint, baseUrl)` resolution is kept
abstract as the pair of its arguments. -/
structure OutboundRequest where
  baseUrl : String
  targetEndpoint : String
  method : String
  headers : List (String × String)
  timeout : Nat

/-- ProxyHandler.forwardRequest lines 71-102 up to the network call:
unknown routes throw; the endpoint is resolved through the alias map when
the alias is truthy; headers are merged as
`{'Content-Type': 'application/json', ...route.headers, ...headers}`
followed by `Object.assign` of the auth callback's result. -/
def forwardRequest (routes : List (String × ProxyRoute)) (routeName endpoint method : String)
    (extraHeaders : List (String × String)) : Except String OutboundRequest :=
  match lookupKV routes routeName with
  | none => Except.error ("Unknown proxy route: " ++ routeName)
  | some route =>
    let target := match lookupKV route.endpoints endpoint with
      | some a => if a = "" then endpoint else a
      | none => endpoint
    let merged := objAssign (objAssign [("Content-Type", "application/json")]
      route.headers) extraHeaders
    let merged2 := match route.authHandler with
      | some f => objAssign merged (f routeName endpoint)
      | none => merged
    Except.ok { baseUrl := route.baseUrl, targetEndpoint := target, method := method,
                headers := merged2, timeout := route.timeout }

/-!
Auxiliary notions used by the theorems, and concrete sample data used by
witnesses and counterexamples.
-/

/-- Names of the plugins whose `handleMessage` hook participates in a
callPluginMethod sweep: the enabled ones exposing the hook, in
registration order. -/
def eligibleNames (ps : List Plugin) : List String :=
  (ps.filter (fun p => p.enabled && p.hook.isSome)).map Plugin.name

/-- Between two connection maps: every surviving connection kept its
`isAuthenticated` flag. -/
def authPres (cs cs2 : List (Nat × Connection)) : Prop :=
  ∀ id c2, lookupConn cs2 id = some c2 →
    ∃ c, lookupConn cs id = some c ∧ c2.isAuthenticated = c.isAuthenticated

/-- Sample plugin pair for claim C1: both enabled, both returning strictly
`true` from their hook. -/
def psC1 : List Plugin :=
  [{ name := "P1", enabled := true,
     hook := some (fun _ _ => HookOutcome.returns (Json.bool true)) },
   { name := "P2", enabled := true,
     hook := some (fun _ _ => HookOutcome.returns (Json.bool true)) }]

/-- Sample handler registry for claim C1: an exact-type handler for
`echo`. -/
def hsC1 : List (String × Handler) :=
  [("echo", fun _ _ => HandlerOutcome.ret (some { type := "echo.response", data := Json.null }))]

/-- Sample ConnectionManager state with one live connection. -/
def cmC1 : CMState := { connections := [(1, {})] }

/-- Sample envelope of type `echo`. -/
def mC1 : SMsg := { type := "echo", data := Json.null }

/-- Sample state for claim C2: one live connection, last active at 0,
idle timeout 100. -/
def cmC2 : CMState := { connections := [(1, { lastActivity := 0 })], idleTimeout := 100 }

/-- Sample state for claim C3: auth not required, no connections yet. -/
def cmC3 : CMState := { authRequired := false }

/-- Sample state for claim C4: auth required, one unauthenticated
connection. -/
def cmC4 : CMState :=
  { connections := [(1, { isAuthenticated := false })], authRequired := true }

/-- Sample raw input for claim C4: a parseable non-auth envelope. -/
def rawC4 : Raw := Raw.wellFormed (Json.obj [("type", Json.str "echo")])

/-- Sample raw input for claim C4: a `system.auth` envelope. -/
def rawC4auth : Raw := Raw.wellFormed (Json.obj [("type", Json.str "system.auth")])

/-- Sample state for claim C5: at the configured connection maximum. -/
def cmC5 : CMState := { connections := [(1, {})], maxConnections := 1 }

/-- Sample state for claim C6: one live connection. -/
def cmC6 : CMState := { connections := [(1, {})] }

/-- Sample state for claim C7: one live connection. -/
def cmC7 : CMState := { connections := [(1, {})] }

/-- Sample plugin for claim C9: enabled, hook throws. -/
def psC9 : List Plugin :=
  [{ name := "P", enabled := true,
     hook := some (fun _ _ => HookOutcome.throws "boom") }]

/-- Sample state for claim C9: one live connection. -/
def cmC9 : CMState := { connections := [(1, {})] }

/-- Sample envelope for claim C9 with no registered handler. -/
def mC9 : SMsg := { type := "zzz", data := Json.null }

/-- Sample handler registry whose `boomtype` handler throws, for the
amended claim C9. -/
def hsC9 : List (String × Handler) :=
  [("boomtype", fun _ _ => HandlerOutcome.throws "kaput")]

/-- Sample envelope matching the throwing handler of `hsC9`. -/
def mC9b : SMsg := { type := "boomtype", data := Json.null }

/-- Sample envelope with no exact-type handler that reaches the throwing
handler of `hsC9` through its first-dot-segment namespace. -/
def mC9c : SMsg := { type := "boomtype.request", data := Json.null }

/-- Sample route for claim C10: route-level headers that also override
Content-Type. -/
def routeC10 : ProxyRoute :=
  { baseUrl := "http://upstream", headers := [("X-A", "1"), ("Content-Type", "text/x")] }

/-- Sample route table for claim C10. -/
def routesC10 : List (String × ProxyRoute) := [("r", routeC10)]

/-- Sample caller headers for claim C10, overriding Content-Type again. -/
def extraC10 : List (String × String) := [("Content-Type", "app/x")]

/-!
Helper lemmas about the connection map and the ConnectionManager
operations.
-/

theorem lookupConn_updateConn_self (cs : List (Nat × Connection)) (id : Nat)
    (f : Connection → Connection) :
    lookupConn (updateConn cs id f) id = (lookupConn cs id).map f := by
  induction cs with
  | nil => rfl
  | cons e rest ih =>
    obtain ⟨k, c⟩ := e
    by_cases h : k = id
    · subst h
      simp [updateConn, lookupConn]
    · simp [updateConn, lookupConn, h, ih]

theorem lookupConn_updateConn_ne (cs : List (Nat × Connection)) (id k : Nat)
    (f : Connection → Connection) (h : k ≠ id) :
    lookupConn (updateConn cs id f) k = lookupConn cs k := by
  induction cs with
  | nil => rfl
  | cons e rest ih =>
    obtain ⟨k1, c⟩ := e
    by_cases h1 : k1 = id
    · subst h1
      simp [updateConn, lookupConn, Ne.symm h, ih]
    · simp [updateConn, lookupConn, h1, ih]

theorem lookupConn_eraseConn_self (cs : List (Nat × Connection)) (id : Nat) :
    lookupConn (eraseConn cs id) id = none := by
  induction cs with
  | nil => rfl
  | cons e rest ih =>
    obtain ⟨k, c⟩ := e
    by_cases h : k = id
    · simp [eraseConn, h, ih]
    · simp [eraseConn, lookupConn, h, ih]

theorem lookupConn_eraseConn_ne (cs : List (Nat × Connection)) (id k : Nat)
    (h : k ≠ id) :
    lookupConn (eraseConn cs id) k = lookupConn cs k := by
  induction cs with
  | nil => rfl
  | cons e rest ih =>
    obtain ⟨k1, c⟩ := e
    by_cases h1 : k1 = id
    · subst h1
      simp [eraseConn, lookupConn, Ne.symm h, ih]
    · simp [eraseConn, lookupConn, h1, ih]

theorem lookupConn_append (cs1 cs2 : List (Nat × Connection)) (k : Nat) :
    lookupConn (cs1 ++ cs2) k =
      match lookupConn cs1 k with
      | some c => some c
      | none => lookupConn cs2 k := by
  induction cs1 with
  | nil => rfl
  | cons e rest ih =>
    obtain ⟨k1, c⟩ := e
    by_cases h : k1 = k
    · simp [lookupConn, h]
    · simp [lookupConn, h, ih]

theorem lookupConn_updateConn_isSome (cs : List (Nat × Connection)) (id : Nat)
    (f : Connection → Connection) (k : Nat) :
    (lookupConn (updateConn cs id f) k).isSome = (lookupConn cs k).isSome := by
  by_cases h : k = id
  · subst h
    rw [lookupConn_updateConn_self]
    cases lookupConn cs k <;> rfl
  · rw [lookupConn_updateConn_ne _ _ _ _ h]

theorem sendMessage_ok (st : CMState) (cid : Nat) (ty : String) (d : Json) (now : Nat)
    (conn : Connection) (hc : lookupConn st.connections cid = some conn)
    (hok : conn.socket.failing = false) :
    sendMessage st cid ty d now =
      ({st with connections := (updateConn st.connections cid
          (fun c => {c with lastActivity := now,
                            stats := {c.stats with messagesSent := c.stats.messagesSent + 1}}))},
       [Out.send cid (createMessage st.protoVersion ty d now)], true) := by
  unfold sendMessage
  rw [hc]
  simp [hok]

theorem sendMessage_lookup_ne (st : CMState) (cid : Nat) (ty : String) (d : Json)
    (now : Nat) (k : Nat) (h : k ≠ cid) :
    lookupConn (sendMessage st cid ty d now).1.connections k = lookupConn st.connections k := by
  unfold sendMessage
  cases hl : lookupConn st.connections cid with
  | none => simp [hl]
  | some conn =>
    simp only [hl]
    by_cases hf : conn.socket.failing <;>
      simp [hf, lookupConn_updateConn_ne _ _ _ _ h]

theorem sendMessage_isSome (st : CMState) (cid : Nat) (ty : String) (d : Json)
    (now : Nat) (k : Nat) :
    (lookupConn (sendMessage st cid ty d now).1.connections k).isSome =
      (lookupConn st.connections k).isSome := by
  unfold sendMessage
  cases hl : lookupConn st.connections cid with
  | none => simp [hl]
  | some conn =>
    simp only [hl]
    by_cases hf : conn.socket.failing <;> simp [hf, lookupConn_updateConn_isSome]

theorem sendMessage_config (st : CMState) (cid : Nat) (ty : String) (d : Json) (now : Nat) :
    (sendMessage st cid ty d now).1.idleTimeout = st.idleTimeout ∧
    (sendMessage st cid ty d now).1.protoVersion = st.protoVersion ∧
    (sendMessage st cid ty d now).1.authRequired = st.authRequired := by
  unfold sendMessage
  cases hl : lookupConn st.connections cid with
  | none => simp [hl]
  | some conn =>
    simp only [hl]
    by_cases hf : conn.socket.failing <;> simp [hf]

theorem removeConnection_lookup_ne (st : CMState) (cid k : Nat) (h : k ≠ cid) :
    lookupConn (removeConnection st cid).1.connections k = lookupConn st.connections k := by
  unfold removeConnection
  cases hl : lookupConn st.connections cid with
  | none => simp [hl]
  | some conn => simp [hl, lookupConn_eraseConn_ne _ _ _ h]

theorem removeConnection_config (st : CMState) (cid : Nat) :
    (removeConnection st cid).1.idleTimeout = st.idleTimeout ∧
    (removeConnection st cid).1.protoVersion = st.protoVersion := by
  unfold removeConnection
  cases hl : lookupConn st.connections cid with
  | none => simp [hl]
  | some conn => simp [hl]

theorem pingStep_idle (now : Nat) (acc : CMState × List Out) (cid : Nat) :
    (pingStep now acc cid).1.idleTimeout = acc.1.idleTimeout := by
  unfold pingStep
  cases hl : lookupConn acc.1.connections cid with
  | none => rfl
  | some conn =>
    simp only [hl]
    by_cases hi : (now : Int) - (conn.lastActivity : Int) > (acc.1.idleTimeout : Int)
    · simp [hi, (removeConnection_config acc.1 cid).1]
    · simp [hi, (sendMessage_config acc.1 cid "system.ping"
        (Json.obj [("timestamp", Json.num (now : Int))]) now).1]

theorem pingStep_lookup_ne (now : Nat) (acc : CMState × List Out) (cid k : Nat)
    (h : k ≠ cid) :
    lookupConn (pingStep now acc cid).1.connections k = lookupConn acc.1.connections k := by
  unfold pingStep
  cases hl : lookupConn acc.1.connections cid with
  | none => rfl
  | some conn =>
    simp only [hl]
    by_cases hi : (now : Int) - (conn.lastActivity : Int) > (acc.1.idleTimeout : Int)
    · simp [hi, removeConnection_lookup_ne _ _ _ h]
    · simp [hi, sendMessage_lookup_ne _ _ _ _ _ _ h]

theorem foldl_pingStep_lookup_ne (now : Nat) (l : List Nat) (acc : CMState × List Out)
    (k : Nat) (h : k ∉ l) :
    lookupConn (l.foldl (pingStep now) acc).1.connections k = lookupConn acc.1.connections k := by
  induction l generalizing acc with
  | nil => rfl
  | cons a l ih =>
    have hk : k ≠ a ∧ k ∉ l := by
      constructor
      · intro hka; exact h (hka ▸ List.mem_cons_self a l)
      · intro hkl; exact h (List.mem_cons_of_mem a hkl)
    rw [List.foldl_cons, ih _ hk.2, pingStep_lookup_ne _ _ _ _ hk.1]

theorem foldl_pingStep_idle (now : Nat) (l : List Nat) (acc : CMState × List Out) :
    (l.foldl (pingStep now) acc).1.idleTimeout = acc.1.idleTimeout := by
  induction l generalizing acc with
  | nil => rfl
  | cons a l ih => rw [List.foldl_cons, ih, pingStep_idle]

theorem pingStep_send (now : Nat) (acc : CMState × List Out) (cid : Nat)
    (conn : Connection) (hl : lookupConn acc.1.connections cid = some conn)
    (hlive2 : ¬((now : Int) - (conn.lastActivity : Int) > (acc.1.idleTimeout : Int))) :
    pingStep now acc cid =
      ((sendMessage acc.1 cid "system.ping"
          (Json.obj [("timestamp", Json.num (now : Int))]) now).1,
       acc.2 ++ (sendMessage acc.1 cid "system.ping"
          (Json.obj [("timestamp", Json.num (now : Int))]) now).2.1) := by
  unfold pingStep
  simp only [hl]
  rw [if_neg hlive2]

theorem lookupConn_mem_keys {cs : List (Nat × Connection)} {k : Nat} {c : Connection}
    (h : lookupConn cs k = some c) : k ∈ cs.map Prod.fst := by
  induction cs with
  | nil => cases h
  | cons e rest ih =>
    obtain ⟨k1, c1⟩ := e
    by_cases h1 : k1 = k
    · subst h1
      exact List.mem_cons_self _ _
    · rw [lookupConn, if_neg h1] at h
      exact List.mem_cons_of_mem _ (ih h)

theorem authPres_refl (cs : List (Nat × Connection)) : authPres cs cs :=
  fun _ c2 h => ⟨c2, h, rfl⟩

theorem authPres_trans {a b c : List (Nat × Connection)}
    (h1 : authPres a b) (h2 : authPres b c) : authPres a c := by
  intro id c2 hc
  obtain ⟨cb, hb, eb⟩ := h2 id c2 hc
  obtain ⟨ca, ha, ea⟩ := h1 id cb hb
  exact ⟨ca, ha, eb.trans ea⟩

theorem authPres_lookup_eq {cs cs2 : List (Nat × Connection)} {id : Nat}
    {c c2 : Connection} (hp : authPres cs cs2)
    (hc : lookupConn cs id = some c) (hc2 : lookupConn cs2 id = some c2) :
    c2.isAuthenticated = c.isAuthenticated := by
  obtain ⟨ca, ha, ea⟩ := hp id c2 hc2
  rw [hc] at ha
  cases ha
  exact ea

theorem authPres_updateConn (cs : List (Nat × Connection)) (id : Nat)
    (f : Connection → Connection)
    (hf : ∀ c, (f c).isAuthenticated = c.isAuthenticated) :
    authPres cs (updateConn cs id f) := by
  intro k c2 h
  by_cases hk : k = id
  · subst hk
    rw [lookupConn_updateConn_self] at h
    cases hl : lookupConn cs k with
    | none => rw [hl] at h; cases h
    | some c =>
      rw [hl] at h
      cases h
      exact ⟨c, rfl, hf c⟩
  · rw [lookupConn_updateConn_ne _ _ _ _ hk] at h
    exact ⟨c2, h, rfl⟩

theorem authPres_eraseConn (cs : List (Nat × Connection)) (id : Nat) :
    authPres cs (eraseConn cs id) := by
  intro k c2 h
  by_cases hk : k = id
  · subst hk
    rw [lookupConn_eraseConn_self] at h
    cases h
  · rw [lookupConn_eraseConn_ne _ _ _ hk] at h
    exact ⟨c2, h, rfl⟩

theorem authPres_sendMessage (st : CMState) (cid : Nat) (ty : String) (d : Json)
    (now : Nat) : authPres st.connections (sendMessage st cid ty d now).1.connections := by
  unfold sendMessage
  cases hl : lookupConn st.connections cid with
  | none => exact authPres_refl _
  | some conn =>
    simp only [hl]
    by_cases hf : conn.socket.failing
    · simp only [hf, if_pos]
      exact authPres_updateConn _ _ _ (fun _ => rfl)
    · simp only [hf, if_neg, Bool.false_eq_true, not_false_iff]
      exact authPres_updateConn _ _ _ (fun _ => rfl)

theorem authPres_removeConnection (st : CMState) (cid : Nat) :
    authPres st.connections (removeConnection st cid).1.connections := by
  unfold removeConnection
  cases hl : lookupConn st.connections cid with
  | none => exact authPres_refl _
  | some conn =>
    simp only [hl]
    exact authPres_eraseConn _ _

theorem authPres_incErrors (st : CMState) (cid : Nat) :
    authPres st.connections (incErrors st cid).connections :=
  authPres_updateConn _ _ _ (fun _ => rfl)

theorem authPres_pingStep (now : Nat) (acc : CMState × List Out) (cid : Nat) :
    authPres acc.1.connections (pingStep now acc cid).1.connections := by
  unfold pingStep
  cases hl : lookupConn acc.1.connections cid with
  | none => exact authPres_refl _
  | some conn =>
    simp only [hl]
    by_cases hi : (now : Int) - (conn.lastActivity : Int) > (acc.1.idleTimeout : Int)
    · simp only [hi, if_pos]
      exact authPres_removeConnection _ _
    · simp only [hi, if_neg, not_false_iff]
      exact authPres_sendMessage _ _ _ _ _

theorem authPres_foldl_pingStep (now : Nat) (l : List Nat) (acc : CMState × List Out) :
    authPres acc.1.connections (l.foldl (pingStep now) acc).1.connections := by
  induction l generalizing acc with
  | nil => exact authPres_refl _
  | cons a l ih =>
    rw [List.foldl_cons]
    exact authPres_trans (authPres_pingStep now acc a) (ih _)

theorem authPres_pingConnections (st : CMState) (now : Nat) :
    authPres st.connections (pingConnections st now).1.connections :=
  authPres_foldl_pingStep now _ _

theorem fate_of_eq {c c2 : Connection} (he : c2.isAuthenticated = c.isAuthenticated)
    (P : Prop) :
    (c.isAuthenticated = true → c2.isAuthenticated = true) ∧
    (c.isAuthenticated = false → c2.isAuthenticated = true → P) := by
  constructor
  · intro h
    rw [he, h]
  · intro hf ht
    rw [hf] at he
    rw [he] at ht
    exact absurd ht (by decide)

theorem authPres_fate {cs cs2 : List (Nat × Connection)} {id : Nat} {c c2 : Connection}
    (hp : authPres cs cs2) (h1 : lookupConn cs id = some c)
    (h2 : lookupConn cs2 id = some c2) (P : Prop) :
    (c.isAuthenticated = true → c2.isAuthenticated = true) ∧
    (c.isAuthenticated = false → c2.isAuthenticated = true → P) :=
  fate_of_eq (authPres_lookup_eq hp h1 h2) P

/-- Transition analysis of ConnectionManager.handleMessage for the
isAuthenticated flag: every surviving connection keeps its flag, except
that the dispatched connection itself can go from false to true, and only
when the parsed envelope's type is strictly the string system.auth. -/
theorem handleMessage_auth_transition (st : CMState) (cid : Nat) (raw : Raw) (now : Nat)
    (st2 : CMState) (outs : List Out)
    (heval : handleMessage st cid raw now = some (st2, outs)) :
    ∀ id c c2, lookupConn st.connections id = some c →
      lookupConn st2.connections id = some c2 →
      (c.isAuthenticated = true → c2.isAuthenticated = true) ∧
      (c.isAuthenticated = false → c2.isAuthenticated = true →
        id = cid ∧ ∃ m, parseMessage true raw = some m ∧
          m.getField "type" = some (Json.str "system.auth")) := by
  intro id c c2 hcid hcid2
  unfold handleMessage at heval
  cases hl : lookupConn st.connections cid with
  | none =>
    simp only [hl] at heval
    simp only [Option.some.injEq, Prod.mk.injEq] at heval
    obtain ⟨rfl, rfl⟩ := heval
    exact authPres_fate (authPres_refl _) hcid hcid2 _
  | some conn =>
    simp only [hl] at heval
    cases hparse : parseMessage true raw with
    | none =>
      simp only [hparse] at heval
      simp only [Option.some.injEq, Prod.mk.injEq] at heval
      obtain ⟨rfl, rfl⟩ := heval
      exact authPres_fate
        (authPres_trans (authPres_sendMessage st cid "system.error" _ now)
          (authPres_incErrors _ cid)) hcid hcid2 _
    | some msg =>
      simp only [hparse] at heval
      by_cases hg : (st.authRequired && !conn.isAuthenticated &&
          !isAuthType (msg.getField "type")) = true
      · rw [if_pos hg] at heval
        simp only [Option.some.injEq, Prod.mk.injEq] at heval
        obtain ⟨rfl, rfl⟩ := heval
        exact authPres_fate
          (authPres_trans (authPres_sendMessage st cid "system.error" _ now)
            (authPres_incErrors _ cid)) hcid hcid2 _
      · rw [if_neg hg] at heval
        cases hT : msg.getField "type" with
        | none => simp [hT] at heval
        | some j =>
          cases j with
          | null => simp [hT] at heval
          | bool b => simp [hT] at heval
          | num n => simp [hT] at heval
          | arr xs => simp [hT] at heval
          | obj fs => simp [hT] at heval
          | str s =>
            simp only [hT] at heval
            by_cases hsw : jsStartsWith s "system." = true
            · rw [if_pos hsw] at heval
              unfold handleSystemMessage at heval
              by_cases hping : s = "system.ping"
              · rw [if_pos hping] at heval
                simp only [Option.some.injEq, Prod.mk.injEq] at heval
                obtain ⟨rfl, rfl⟩ := heval
                exact authPres_fate (authPres_sendMessage st cid "system.pong" _ now)
                  hcid hcid2 _
              · rw [if_neg hping] at heval
                by_cases hA : s = "system.auth"
                · rw [if_pos hA] at heval
                  have hpair : handleAuthRequest st cid now = (st2, outs) :=
                    Option.some.inj heval
                  have h1 : (handleAuthRequest st cid now).1 = st2 :=
                    congrArg Prod.fst hpair
                  subst h1
                  have hham : (handleAuthRequest st cid now).1 = (sendMessage ({st with connections := (updateConn st.connections cid (fun c => {c with isAuthenticated := true}))}) cid "system.auth_response" (Json.obj [("success", Json.bool true), ("timestamp", Json.num (now : Int)), ("expiresAt", Json.num ((now + st.tokenExpiration : Nat) : Int))]) now).1 := rfl
                  rw [hham] at hcid2
                  have hst1 : lookupConn (updateConn st.connections cid (fun c => {c with isAuthenticated := true})) cid = some {conn with isAuthenticated := true} := by
                    rw [lookupConn_updateConn_self, hl]
                    rfl
                  by_cases hid : id = cid
                  · subst hid
                    have hcconn : conn = c := by
                      rw [hl] at hcid
                      exact Option.some.inj hcid
                    obtain ⟨c3, hc3, he3⟩ :=
                      authPres_sendMessage ({st with connections := (updateConn st.connections id (fun c => {c with isAuthenticated := true}))}) id "system.auth_response" (Json.obj [("success", Json.bool true), ("timestamp", Json.num (now : Int)), ("expiresAt", Json.num ((now + st.tokenExpiration : Nat) : Int))]) now id c2 hcid2
                    have hc3' : lookupConn (updateConn st.connections id (fun c => {c with isAuthenticated := true})) id = some c3 := hc3
                    rw [hst1] at hc3'
                    have hc3eq : ({conn with isAuthenticated := true} : Connection) = c3 :=
                      Option.some.inj hc3'
                    have hc2true : c2.isAuthenticated = true := by
                      rw [he3, ← hc3eq]
                    constructor
                    · intro _
                      exact hc2true
                    · intro _ _
                      exact ⟨rfl, msg, rfl, by rw [hT, hA]⟩
                  · obtain ⟨c3, hc3, he3⟩ :=
                      authPres_sendMessage ({st with connections := (updateConn st.connections cid (fun c => {c with isAuthenticated := true}))}) cid "system.auth_response" (Json.obj [("success", Json.bool true), ("timestamp", Json.num (now : Int)), ("expiresAt", Json.num ((now + st.tokenExpiration : Nat) : Int))]) now id c2 hcid2
                    have hc3' : lookupConn (updateConn st.connections cid (fun c => {c with isAuthenticated := true})) id = some c3 := hc3
                    rw [lookupConn_updateConn_ne _ _ _ _ hid] at hc3'
                    rw [hcid] at hc3'
                    have hc3eq : c = c3 := Option.some.inj hc3'
                    exact fate_of_eq (by rw [he3, ← hc3eq]) _
                · rw [if_neg hA] at heval
                  by_cases hreg : s = "system.register"
                  · rw [if_pos hreg] at heval
                    have hpair : handleClientRegistration st cid msg now = (st2, outs) :=
                      Option.some.inj heval
                    have h1 : (handleClientRegistration st cid msg now).1 = st2 :=
                      congrArg Prod.fst hpair
                    subst h1
                    have hhcr : (handleClientRegistration st cid msg now).1 = (sendMessage ({st with connections := (updateConn st.connections cid (fun c => {c with clientInfo := match msg.getField "data" with | some (Json.obj fs) => objAssign c.clientInfo fs | _ => c.clientInfo}))}) cid "system.register_response" (Json.obj [("success", Json.bool true), ("id", Json.num (cid : Int)), ("timestamp", Json.num (now : Int))]) now).1 := rfl
                    rw [hhcr] at hcid2
                    refine authPres_fate (authPres_trans ?_ (authPres_sendMessage _ _ _ _ _)) hcid hcid2 _
                    exact authPres_updateConn _ _ _ (fun _ => rfl)
                  · rw [if_neg hreg] at heval
                    simp only [Option.some.injEq, Prod.mk.injEq] at heval
                    obtain ⟨rfl, rfl⟩ := heval
                    exact authPres_fate (authPres_refl _) hcid hcid2 _
            · rw [if_neg hsw] at heval
              simp only [Option.some.injEq, Prod.mk.injEq] at heval
              obtain ⟨rfl, rfl⟩ := heval
              exact authPres_fate (authPres_refl _) hcid hcid2 _

/-!
Helper lemmas about string-keyed maps (headers, plugin results).
-/

theorem lookupKV_insertKV {α : Type} (l : List (String × α)) (k2 : String) (v2 : α)
    (k : String) :
    lookupKV (insertKV l (k2, v2)) k = if k = k2 then some v2 else lookupKV l k := by
  induction l with
  | nil =>
    by_cases h : k = k2
    · subst h
      simp [insertKV, lookupKV]
    · simp [insertKV, lookupKV, h, Ne.symm h]
  | cons e rest ih =>
    obtain ⟨k1, v1⟩ := e
    by_cases h1 : k1 = k2
    · subst h1
      by_cases h2 : k = k1
      · subst h2
        simp [insertKV, lookupKV]
      · simp [insertKV, lookupKV, h2, Ne.symm h2]
    · by_cases h2 : k1 = k
      · subst h2
        simp [insertKV, lookupKV, h1, Ne.symm h1]
      · simp [insertKV, lookupKV, h1, h2, ih]

theorem lookupKV_objAssign {α : Type} (base extra : List (String × α)) (k : String) :
    lookupKV (objAssign base extra) k =
      match lookupLastKV extra k with
      | some v => some v
      | none => lookupKV base k := by
  induction extra generalizing base with
  | nil => rfl
  | cons e rest ih =>
    obtain ⟨k1, v1⟩ := e
    have step : objAssign base ((k1, v1) :: rest) = objAssign (insertKV base (k1, v1)) rest := rfl
    rw [step, ih]
    cases hl : lookupLastKV rest k with
    | some v => simp [lookupLastKV, hl]
    | none =>
      simp only [lookupLastKV, hl]
      rw [lookupKV_insertKV]
      by_cases h : k = k1
      · subst h
        simp
      · simp [h, Ne.symm h]

theorem callPluginMethod_names (ps : List Plugin) (m : SMsg) (ctx : Ctx) :
    (callPluginMethod ps m ctx).2 = eligibleNames ps := by
  induction ps with
  | nil => rfl
  | cons p rest ih =>
    by_cases hp : p.enabled
    · cases hh : p.hook with
      | none =>
        have h1 : (callPluginMethod (p :: rest) m ctx).2 = (callPluginMethod rest m ctx).2 := by
          simp [callPluginMethod, hp, hh]
        have h2 : eligibleNames (p :: rest) = eligibleNames rest := by
          simp [eligibleNames, List.filter_cons, hp, hh]
        rw [h1, h2, ih]
      | some h =>
        have h1 : (callPluginMethod (p :: rest) m ctx).2 =
            p.name :: (callPluginMethod rest m ctx).2 := by
          simp [callPluginMethod, hp, hh]
        have h2 : eligibleNames (p :: rest) = p.name :: eligibleNames rest := by
          simp [eligibleNames, List.filter_cons, hp, hh]
        rw [h1, h2, ih]
    · have h1 : (callPluginMethod (p :: rest) m ctx).2 = (callPluginMethod rest m ctx).2 := by
        simp [callPluginMethod, hp]
      have h2 : eligibleNames (p :: rest) = eligibleNames rest := by
        simp [eligibleNames, List.filter_cons, hp]
      rw [h1, h2, ih]

/-!
Claim theorems.
-/

/-- C5: when the number of live connections equals the configured
maximum, addConnection leaves the state (hence the live count and the set
of existing connections) unchanged and returns no id; when the rejected
transport's write does not throw, the outputs are exactly a code-500
system error written to that transport followed by its close. -/
theorem c5_max_connections_reject (st : CMState) (sock : Socket)
    (ip ua : String) (now newId : Nat)
    (hmax : st.connections.length = st.maxConnections) :
    (addConnection st sock ip ua now newId).1 = st ∧
    (addConnection st sock ip ua now newId).2.2 = none ∧
    (sock.failing = false →
      (addConnection st sock ip ua now newId).2.1 =
        [Out.rawSend (createErrorMessage st.protoVersion errServerError
          "Maximum connections reached" now), Out.rawClose]) := by
  have hge : st.connections.length ≥ st.maxConnections := le_of_eq hmax.symm
  unfold addConnection
  rw [if_pos hge]
  refine ⟨rfl, rfl, fun hf => ?_⟩
  simp [hf]

/-- Witness for C5 at a one-connection state with maximum 1. -/
theorem c5_max_connections_reject_witness :
    (addConnection cmC5 {} "ip" "ua" 7 2).1 = cmC5 ∧
    (addConnection cmC5 {} "ip" "ua" 7 2).2.2 = none ∧
    (({} : Socket).failing = false →
      (addConnection cmC5 {} "ip" "ua" 7 2).2.1 =
        [Out.rawSend (createErrorMessage cmC5.protoVersion errServerError
          "Maximum connections reached" 7), Out.rawClose]) :=
  c5_max_connections_reject cmC5 {} "ip" "ua" 7 2 rfl

/-- C7: removing a live connection returns true, closes the transport if
still OPEN, emits exactly one disconnection event, and afterwards the id
is gone; a second removal of the same id is a strict no-op (same state,
no outputs, false), so the disconnection event is emitted exactly once
across any number of removals. -/
theorem c7_remove_idempotent (st : CMState) (cid : Nat) (conn : Connection)
    (hc : lookupConn st.connections cid = some conn) :
    (removeConnection st cid).2.2 = true ∧
    (removeConnection st cid).2.1 =
      (if conn.socket.readyState = 1 then [Out.closeConn cid] else []) ++
        [Out.event (CMEvent.disconnection cid)] ∧
    lookupConn (removeConnection st cid).1.connections cid = none ∧
    removeConnection (removeConnection st cid).1 cid =
      ((removeConnection st cid).1, [], false) := by
  have h1 : removeConnection st cid =
      ({st with connections := eraseConn st.connections cid},
       (if conn.socket.readyState = 1 then [Out.closeConn cid] else []) ++
         [Out.event (CMEvent.disconnection cid)], true) := by
    unfold removeConnection
    rw [hc]
  rw [h1]
  refine ⟨rfl, rfl, lookupConn_eraseConn_self _ _, ?_⟩
  unfold removeConnection
  simp [lookupConn_eraseConn_self]

/-- Witness for C7 at a one-connection state. -/
theorem c7_remove_idempotent_witness :
    (removeConnection cmC7 1).2.2 = true ∧
    (removeConnection cmC7 1).2.1 =
      (if ({} : Connection).socket.readyState = 1 then [Out.closeConn 1] else []) ++
        [Out.event (CMEvent.disconnection 1)] ∧
    lookupConn (removeConnection cmC7 1).1.connections 1 = none ∧
    removeConnection (removeConnection cmC7 1).1 1 = ((removeConnection cmC7 1).1, [], false) :=
  c7_remove_idempotent cmC7 1 {} rfl

/-- C6: malformed input (invalid JSON, a non-object value, or an object
with no type field) fails to decode, and a failed decode makes the
connection manager answer with exactly one code-100 invalid-message
system error — no message event (hence no plugin hook or registered
handler) and no system-handler effect occurs, and the only state change
is to that connection's activity and stats counters. -/
theorem c6_malformed_rejected (st : CMState) (cid : Nat) (conn : Connection) (now : Nat) :
    parseMessage true Raw.malformed = none ∧
    (∀ j, jsObjectLike j = false → parseMessage true (Raw.wellFormed j) = none) ∧
    (∀ fs, lookupLastKV fs "type" = none →
       parseMessage true (Raw.wellFormed (Json.obj fs)) = none) ∧
    (lookupConn st.connections cid = some conn → conn.socket.failing = false →
     ∀ raw, parseMessage true raw = none →
       handleMessage st cid raw now =
         some (incErrors (sendError st cid errInvalidMessage "Invalid message format" now).1 cid,
               [Out.send cid (createMessage st.protoVersion "system.error"
                 (errorData errInvalidMessage "Invalid message format") now)])) := by
  refine ⟨rfl, ?_, ?_, ?_⟩
  · intro j hj
    simp [parseMessage, validateMessage, hj]
  · intro fs hf
    simp [parseMessage, validateMessage, Json.getField, hf, jsTruthy]
  · intro hc hok raw hp
    have hs := sendMessage_ok st cid "system.error"
      (errorData errInvalidMessage "Invalid message format") now conn hc hok
    unfold handleMessage
    rw [hc, hp]
    unfold sendError
    rw [hs]

/-- Witness for C6 at a one-connection state and a malformed raw input. -/
theorem c6_malformed_rejected_witness :
    parseMessage true Raw.malformed = none ∧
    (jsObjectLike (Json.num 3) = false → parseMessage true (Raw.wellFormed (Json.num 3)) = none) ∧
    (lookupLastKV [("data", Json.null)] "type" = none →
       parseMessage true (Raw.wellFormed (Json.obj [("data", Json.null)])) = none) ∧
    handleMessage cmC6 1 Raw.malformed 9 =
      some (incErrors (sendError cmC6 1 errInvalidMessage "Invalid message format" 9).1 1,
            [Out.send 1 (createMessage cmC6.protoVersion "system.error"
              (errorData errInvalidMessage "Invalid message format") 9)]) := by
  obtain ⟨h1, h2, h3, h4⟩ := c6_malformed_rejected cmC6 1 {} 9
  exact ⟨h1, fun _ => h2 (Json.num 3) rfl, fun _ => h3 [("data", Json.null)] rfl,
         h4 rfl rfl Raw.malformed rfl⟩

/-- C8: serializing a well-formed envelope (an object whose type field is
truthy, every field being a JSON value) and decoding the result yields an
envelope whose type, version and data equal those of the original. -/
theorem c8_roundtrip (fields : List (String × Json))
    (h : jsTruthy (lookupLastKV fields "type") = true) :
    ∃ raw e2, serializeMessage (Json.obj fields) = some raw ∧
      parseMessage true raw = some e2 ∧
      e2.getField "type" = (Json.obj fields).getField "type" ∧
      e2.getField "version" = (Json.obj fields).getField "version" ∧
      e2.getField "data" = (Json.obj fields).getField "data" := by
  refine ⟨Raw.wellFormed (Json.obj fields), Json.obj fields, rfl, ?_, rfl, rfl, rfl⟩
  simp [parseMessage, validateMessage, jsObjectLike, Json.getField, h]

/-- Witness for C8 at a concrete three-field envelope. -/
theorem c8_roundtrip_witness :
    ∃ raw e2,
      serializeMessage (Json.obj [("type", Json.str "system.ping"),
        ("version", Json.str "1.0"), ("data", Json.null)]) = some raw ∧
      parseMessage true raw = some e2 ∧
      e2.getField "type" = (Json.obj [("type", Json.str "system.ping"),
        ("version", Json.str "1.0"), ("data", Json.null)]).getField "type" ∧
      e2.getField "version" = (Json.obj [("type", Json.str "system.ping"),
        ("version", Json.str "1.0"), ("data", Json.null)]).getField "version" ∧
      e2.getField "data" = (Json.obj [("type", Json.str "system.ping"),
        ("version", Json.str "1.0"), ("data", Json.null)]).getField "data" :=
  c8_roundtrip [("type", Json.str "system.ping"), ("version", Json.str "1.0"),
    ("data", Json.null)] (by rfl)

/-- C10: for a registered route, forwardRequest succeeds and the outbound
header map resolves every key by priority auth callback, then caller
extras, then route headers, then the Content-Type application/json
default — in particular Content-Type is application/json unless one of
the three sources overrides it. -/
theorem c10_header_priority (routes : List (String × ProxyRoute))
    (routeName endpoint method : String) (extra : List (String × String))
    (route : ProxyRoute) (hr : lookupKV routes routeName = some route) :
    ∃ req, forwardRequest routes routeName endpoint method extra = Except.ok req ∧
      ∀ k, lookupKV req.headers k =
        match (match route.authHandler with
               | some f => lookupLastKV (f routeName endpoint) k
               | none => none) with
        | some v => some v
        | none =>
          match lookupLastKV extra k with
          | some v => some v
          | none =>
            match lookupLastKV route.headers k with
            | some v => some v
            | none => if k = "Content-Type" then some "application/json" else none := by
  have hbase : ∀ k : String, lookupKV [("Content-Type", "application/json")] k =
      if k = "Content-Type" then some "application/json" else none := by
    intro k
    by_cases hk : k = "Content-Type"
    · subst hk
      simp [lookupKV]
    · simp [lookupKV, hk, Ne.symm hk]
  unfold forwardRequest
  rw [hr]
  refine ⟨_, rfl, ?_⟩
  intro k
  cases ha : route.authHandler with
  | none =>
    simp only [ha]
    rw [lookupKV_objAssign, lookupKV_objAssign, hbase]
    cases lookupLastKV extra k <;> cases lookupLastKV route.headers k <;> rfl
  | some f =>
    simp only [ha]
    rw [lookupKV_objAssign, lookupKV_objAssign, lookupKV_objAssign, hbase]
    cases lookupLastKV (f routeName endpoint) k <;> cases lookupLastKV extra k <;>
      cases lookupLastKV route.headers k <;> rfl

/-- Witness for C10 at a route whose headers and caller extras both
override Content-Type. -/
theorem c10_header_priority_witness :
    ∃ req, forwardRequest routesC10 "r" "/x" "GET" extraC10 = Except.ok req ∧
      ∀ k, lookupKV req.headers k =
        match (match routeC10.authHandler with
               | some f => lookupLastKV (f "r" "/x") k
               | none => none) with
        | some v => some v
        | none =>
          match lookupLastKV extraC10 k with
          | some v => some v
          | none =>
            match lookupLastKV routeC10.headers k with
            | some v => some v
            | none => if k = "Content-Type" then some "application/json" else none :=
  c10_header_priority routesC10 "r" "/x" "GET" extraC10 routeC10 rfl

/-- C1 counterexample: with two enabled plugins whose hooks both return
strictly true, the first plugin returns true for the envelope and yet the
second plugin's hook is still invoked — the plugin chain does not
short-circuit. -/
theorem c1_counterexample :
    (callPluginMethod psC1 mC1 { connectionId := 1, timestamp := 5 }).1 =
      [PResult.ok "P1" (Json.bool true), PResult.ok "P2" (Json.bool true)] ∧
    (serverHandleMessage psC1 hsC1 cmC1 1 mC1 5).hooksInvoked = ["P1", "P2"] := by
  exact ⟨rfl, rfl⟩

/-- C1 (amended): every enabled plugin exposing the hook is invoked, in
registration order, regardless of earlier results; when some hook
returned strictly true, no handler-registry key is executed, no response
is produced or sent, and the connection state is untouched. -/
theorem c1_plugin_chain (ps : List Plugin) (hs : List (String × Handler))
    (cm : CMState) (cid : Nat) (m : SMsg) (now : Nat)
    (h : ((callPluginMethod ps m { connectionId := cid, timestamp := now }).1.any
      isTrueResult) = true) :
    (serverHandleMessage ps hs cm cid m now).handlerInvoked = none ∧
    (serverHandleMessage ps hs cm cid m now).response = none ∧
    (serverHandleMessage ps hs cm cid m now).outs = [] ∧
    (serverHandleMessage ps hs cm cid m now).cm = cm ∧
    (serverHandleMessage ps hs cm cid m now).hooksInvoked = eligibleNames ps := by
  unfold serverHandleMessage
  simp [h, callPluginMethod_names]

/-- Witness for the amended C1 at the two-plugin sample. -/
theorem c1_plugin_chain_witness :
    (serverHandleMessage psC1 hsC1 cmC1 1 mC1 5).handlerInvoked = none ∧
    (serverHandleMessage psC1 hsC1 cmC1 1 mC1 5).response = none ∧
    (serverHandleMessage psC1 hsC1 cmC1 1 mC1 5).outs = [] ∧
    (serverHandleMessage psC1 hsC1 cmC1 1 mC1 5).cm = cmC1 ∧
    (serverHandleMessage psC1 hsC1 cmC1 1 mC1 5).hooksInvoked = eligibleNames psC1 :=
  c1_plugin_chain psC1 hsC1 cmC1 1 mC1 5 rfl

/-- C9 counterexample: with one enabled plugin whose hook throws and no
handler registered for the envelope's type, the hook throw is caught but
no code-500 system error is produced — what is sent to the connection is
the 404 no-handler response. -/
theorem c9_counterexample :
    (callPluginMethod psC9 mC9 { connectionId := 1, timestamp := 7 }).1 =
      [PResult.err "P" "boom"] ∧
    (serverHandleMessage psC9 [] cmC9 1 mC9 7).response = some (err404Response "zzz" 7) ∧
    (err404Response "zzz" 7).data.getField "code" = some (Json.num 404) ∧
    (serverHandleMessage psC9 [] cmC9 1 mC9 7).outs =
      [Out.send 1 (createMessage "1.0" "error" (err404Response "zzz" 7).data 7)] :=
  ⟨rfl, rfl, rfl, rfl⟩

/-- C9 (amended): a throwing registered handler — whether matched by the
envelope's exact type or through processMessage's first-dot-segment
namespace branch — is caught inside processMessage and converted to a
response of type error carrying code 500, which is sent to the
originating connection; the connection map keeps exactly the same ids
(the connection is not removed), every eligible plugin hook still ran,
and dispatch returns normally.  (A throwing plugin hook, by contrast, is
caught and logged inside callPluginMethod and produces no error response,
as the counterexample shows.) -/
theorem c9_handler_fault_contained (ps : List Plugin) (hs : List (String × Handler))
    (cm : CMState) (cid : Nat) (m : SMsg) (now : Nat) (conn : Connection)
    (hdl : Handler) (e : String)
    (hc : lookupConn cm.connections cid = some conn)
    (hok : conn.socket.failing = false)
    (hty : ¬m.type = "")
    (hnp : ((callPluginMethod ps m { connectionId := cid, timestamp := now }).1.any
      isTrueResult) = false)
    (hmatch : lookupKV hs m.type = some hdl ∨
      (lookupKV hs m.type = none ∧ lookupKV hs (namespaceOf m.type) = some hdl))
    (ht : hdl m { connectionId := cid, timestamp := now } = HandlerOutcome.throws e) :
    (serverHandleMessage ps hs cm cid m now).response = some (err500Response e now) ∧
    (serverHandleMessage ps hs cm cid m now).outs =
      [Out.send cid (createMessage cm.protoVersion "error" (err500Response e now).data now)] ∧
    (∀ k, (lookupConn (serverHandleMessage ps hs cm cid m now).cm.connections k).isSome =
       (lookupConn cm.connections k).isSome) ∧
    (serverHandleMessage ps hs cm cid m now).hooksInvoked = eligibleNames ps := by
  have hpm : ∃ mk, processMessage hs m { connectionId := cid, timestamp := now } now =
      (some (err500Response e now), some mk, [MHEvent.errorEvent]) := by
    cases hmatch with
    | inl h =>
      refine ⟨m.type, ?_⟩
      unfold processMessage
      rw [if_neg hty, h]
      simp [ht]
    | inr h =>
      refine ⟨namespaceOf m.type, ?_⟩
      unfold processMessage
      rw [if_neg hty, h.1, h.2]
      simp [ht]
  obtain ⟨mk, hpm⟩ := hpm
  have hsend := sendMessage_ok cm cid (err500Response e now).type
    (err500Response e now).data now conn hc hok
  have hmain : serverHandleMessage ps hs cm cid m now =
      { cm := {cm with connections := (updateConn cm.connections cid (fun c => {c with lastActivity := now, stats := {c.stats with messagesSent := c.stats.messagesSent + 1}}))},
        outs := [Out.send cid (createMessage cm.protoVersion (err500Response e now).type (err500Response e now).data now)],
        hooksInvoked := (callPluginMethod ps m { connectionId := cid, timestamp := now }).2,
        handlerInvoked := some mk,
        response := some (err500Response e now) } := by
    unfold serverHandleMessage
    simp only [hnp, Bool.false_eq_true, if_false, hpm, hsend]
  refine ⟨by rw [hmain], by rw [hmain]; rfl, ?_, ?_⟩
  · intro k
    rw [hmain]
    exact lookupConn_updateConn_isSome _ _ _ _
  · rw [hmain]
    exact callPluginMethod_names ps m _

/-- Witness for the amended C9: the throwing handler is reached through
the namespace branch (no exact-type entry for boomtype.request). -/
theorem c9_handler_fault_contained_witness :
    (serverHandleMessage [] hsC9 cmC9 1 mC9c 7).response = some (err500Response "kaput" 7) ∧
    (serverHandleMessage [] hsC9 cmC9 1 mC9c 7).outs =
      [Out.send 1 (createMessage cmC9.protoVersion "error" (err500Response "kaput" 7).data 7)] ∧
    (∀ k, (lookupConn (serverHandleMessage [] hsC9 cmC9 1 mC9c 7).cm.connections k).isSome =
       (lookupConn cmC9.connections k).isSome) ∧
    (serverHandleMessage [] hsC9 cmC9 1 mC9c 7).hooksInvoked = eligibleNames ([] : List Plugin) :=
  c9_handler_fault_contained [] hsC9 cmC9 1 mC9c 7 {}
    (fun _ _ => HandlerOutcome.throws "kaput") "kaput" rfl rfl (by decide) rfl
    (Or.inr ⟨rfl, rfl⟩) rfl

/-- C2 counterexample: in a one-connection state last active at time 0
with idle timeout 100, the sweep at time 5 sends the connection a system
ping and its lastActivity moves from 0 to 5 — a successfully delivered
ping does refresh the activity timestamp. -/
theorem c2_counterexample :
    (lookupConn cmC2.connections 1).map Connection.lastActivity = some 0 ∧
    (pingConnections cmC2 5).2 =
      [Out.send 1 (createMessage "1.0" "system.ping"
        (Json.obj [("timestamp", Json.num 5)]) 5)] ∧
    (lookupConn (pingConnections cmC2 5).1.connections 1).map Connection.lastActivity =
      some 5 :=
  ⟨rfl, rfl, rfl⟩

/-- C2 (amended): during the liveness sweep, every live connection that
is not past the idle timeout and whose transport write succeeds has its
lastActivity refreshed to the sweep time — sendMessage updates
lastActivity on every successful outbound send, pings included, so
inbound client activity is not the only source of refreshes. -/
theorem c2_ping_refreshes_activity (st : CMState) (cid : Nat) (conn : Connection)
    (now : Nat)
    (hnd : (st.connections.map Prod.fst).Nodup)
    (hc : lookupConn st.connections cid = some conn)
    (hlive : ¬((now : Int) - (conn.lastActivity : Int) > (st.idleTimeout : Int)))
    (hok : conn.socket.failing = false) :
    (lookupConn (pingConnections st now).1.connections cid).map Connection.lastActivity =
      some now := by
  have hmem : cid ∈ st.connections.map Prod.fst := lookupConn_mem_keys hc
  obtain ⟨l1, l2, hsplit⟩ := List.append_of_mem hmem
  rw [hsplit] at hnd
  obtain ⟨hnd1, hnd2, hdisj⟩ := List.nodup_append.mp hnd
  have hnotin2 : cid ∉ l2 := (List.nodup_cons.mp hnd2).1
  have hnotin1 : cid ∉ l1 := fun hmem1 => hdisj hmem1 (List.mem_cons_self _ _)
  unfold pingConnections
  rw [hsplit, List.foldl_append, List.foldl_cons]
  have hl1 : lookupConn (l1.foldl (pingStep now) (st, [])).1.connections cid = some conn := by
    rw [foldl_pingStep_lookup_ne now l1 (st, []) cid hnotin1]
    exact hc
  have hidle : (l1.foldl (pingStep now) (st, [])).1.idleTimeout = st.idleTimeout :=
    foldl_pingStep_idle now l1 (st, [])
  have hping := pingStep_send now (l1.foldl (pingStep now) (st, [])) cid conn hl1
    (by rw [hidle]; exact hlive)
  have hstep : lookupConn (pingStep now (l1.foldl (pingStep now) (st, [])) cid).1.connections cid = some {conn with lastActivity := now, stats := {conn.stats with messagesSent := conn.stats.messagesSent + 1}} := by
    rw [hping, sendMessage_ok _ cid _ _ now conn hl1 hok]
    show lookupConn (updateConn (l1.foldl (pingStep now) (st, [])).1.connections cid (fun c => {c with lastActivity := now, stats := {c.stats with messagesSent := c.stats.messagesSent + 1}})) cid = _
    rw [lookupConn_updateConn_self, hl1]
    rfl
  rw [foldl_pingStep_lookup_ne now l2 _ cid hnotin2, hstep]
  rfl

/-- Witness for the amended C2 at the one-connection sample state. -/
theorem c2_ping_refreshes_activity_witness :
    (lookupConn (pingConnections cmC2 5).1.connections 1).map Connection.lastActivity =
      some 5 :=
  c2_ping_refreshes_activity cmC2 1 ({ lastActivity := 0 } : Connection) 5 (by decide) rfl
    (by decide) rfl

/-- C4: with auth required and the connection unauthenticated, any parsed
envelope whose type is not strictly the string system.auth yields exactly
one code-200 unauthorized system error sent to that connection — no
message event (hence no plugin hook or registered handler) and no system
handler runs; a system.auth envelope is still accepted and leaves the
connection authenticated. -/
theorem c4_auth_gate (st : CMState) (cid : Nat) (conn : Connection) (raw : Raw)
    (msg : Json) (now : Nat)
    (hreq : st.authRequired = true)
    (hc : lookupConn st.connections cid = some conn)
    (hauth : conn.isAuthenticated = false)
    (hp : parseMessage true raw = some msg)
    (hok : conn.socket.failing = false) :
    (isAuthType (msg.getField "type") = false →
      handleMessage st cid raw now =
        some (incErrors (sendError st cid errUnauthorized "Authentication required" now).1 cid,
              [Out.send cid (createMessage st.protoVersion "system.error"
                (errorData errUnauthorized "Authentication required") now)])) ∧
    (msg.getField "type" = some (Json.str "system.auth") →
      ∃ st2 outs, handleMessage st cid raw now = some (st2, outs) ∧
        (lookupConn st2.connections cid).map Connection.isAuthenticated = some true) := by
  constructor
  · intro hT
    have hs := sendMessage_ok st cid "system.error"
      (errorData errUnauthorized "Authentication required") now conn hc hok
    unfold handleMessage
    simp only [hc, hp, hreq, hauth, hT, Bool.not_false, Bool.true_and, Bool.and_self, if_true]
    unfold sendError
    rw [hs]
  · intro hT
    have hisT : isAuthType (msg.getField "type") = true := by rw [hT]; rfl
    have hsw : jsStartsWith "system.auth" "system." = true := by decide
    have hl1 : lookupConn (updateConn st.connections cid (fun c => {c with isAuthenticated := true})) cid = some {conn with isAuthenticated := true} := by
      rw [lookupConn_updateConn_self, hc]
      rfl
    have hauthreq : handleAuthRequest st cid now =
        ((sendMessage ({st with connections := (updateConn st.connections cid (fun c => {c with isAuthenticated := true}))}) cid "system.auth_response" (Json.obj [("success", Json.bool true), ("timestamp", Json.num (now : Int)), ("expiresAt", Json.num ((now + st.tokenExpiration : Nat) : Int))]) now).1,
         (sendMessage ({st with connections := (updateConn st.connections cid (fun c => {c with isAuthenticated := true}))}) cid "system.auth_response" (Json.obj [("success", Json.bool true), ("timestamp", Json.num (now : Int)), ("expiresAt", Json.num ((now + st.tokenExpiration : Nat) : Int))]) now).2.1 ++ [Out.event (CMEvent.authenticated cid)]) := rfl
    have hisT2 : isAuthType (some (Json.str "system.auth")) = true := rfl
    have hmsg : handleMessage st cid raw now = some (handleSystemMessage st cid msg "system.auth" now) := by
      unfold handleMessage
      simp only [hc, hp, hreq, hauth, hisT, hisT2, hT, Bool.not_true, Bool.and_false, if_false,
        Bool.false_eq_true, hsw, if_true]
    have hsys : handleSystemMessage st cid msg "system.auth" now = handleAuthRequest st cid now := by
      unfold handleSystemMessage
      rw [if_neg (by decide : ¬("system.auth" = "system.ping")), if_pos rfl]
    refine ⟨(handleAuthRequest st cid now).1, (handleAuthRequest st cid now).2, ?_, ?_⟩
    · rw [hmsg, hsys]
    · rw [hauthreq]
      rw [sendMessage_ok ({st with connections := (updateConn st.connections cid (fun c => {c with isAuthenticated := true}))}) cid "system.auth_response" (Json.obj [("success", Json.bool true), ("timestamp", Json.num (now : Int)), ("expiresAt", Json.num ((now + st.tokenExpiration : Nat) : Int))]) now ({conn with isAuthenticated := true}) hl1 hok]
      show (lookupConn (updateConn (updateConn st.connections cid (fun c => {c with isAuthenticated := true})) cid (fun c => {c with lastActivity := now, stats := {c.stats with messagesSent := c.stats.messagesSent + 1}})) cid).map Connection.isAuthenticated = some true
      rw [lookupConn_updateConn_self, hl1]
      rfl

/-- C3 counterexample: with authentication not required, a freshly
accepted connection is already authenticated — isAuthenticated is
initialized to the negation of authRequired, not to false. -/
theorem c3_counterexample :
    cmC3.authRequired = false ∧
    (lookupConn (addConnection cmC3 {} "ip" "ua" 0 1).1.connections 1).map
      Connection.isAuthenticated = some true :=
  ⟨rfl, rfl⟩

/-- C3 (amended): a fresh connection starts with isAuthenticated equal to
the negation of authRequired (unauthenticated exactly when auth is
required); sends, removals and the liveness sweep never change any
surviving connection's flag; dispatch never lowers the flag, and raises
it only on the dispatched connection itself by an envelope whose parsed
type is strictly system.auth; and when auth is not required and every
live connection is (as construction guarantees) already authenticated, no
transition occurs at all — so a false-to-true transition can only happen
when auth is required. -/
theorem c3_auth_flag (st : CMState) :
    (∀ sock ip ua now newId,
      lookupConn st.connections newId = none →
      st.connections.length < st.maxConnections →
      (lookupConn (addConnection st sock ip ua now newId).1.connections newId).map
        Connection.isAuthenticated = some (!st.authRequired)) ∧
    (∀ cid ty d now, authPres st.connections (sendMessage st cid ty d now).1.connections) ∧
    (∀ cid, authPres st.connections (removeConnection st cid).1.connections) ∧
    (∀ now, authPres st.connections (pingConnections st now).1.connections) ∧
    (∀ cid raw now st2 outs, handleMessage st cid raw now = some (st2, outs) →
      ∀ id c c2, lookupConn st.connections id = some c →
        lookupConn st2.connections id = some c2 →
        (c.isAuthenticated = true → c2.isAuthenticated = true) ∧
        (c.isAuthenticated = false → c2.isAuthenticated = true →
          id = cid ∧ ∃ m, parseMessage true raw = some m ∧
            m.getField "type" = some (Json.str "system.auth"))) ∧
    (st.authRequired = false →
      (∀ id c, lookupConn st.connections id = some c → c.isAuthenticated = true) →
      ∀ cid raw now st2 outs, handleMessage st cid raw now = some (st2, outs) →
        ∀ id c c2, lookupConn st.connections id = some c →
          lookupConn st2.connections id = some c2 →
          c2.isAuthenticated = c.isAuthenticated) := by
  refine ⟨?_, ?_, ?_, ?_, ?_, ?_⟩
  · intro sock ip ua now newId hfresh hcap
    unfold addConnection
    rw [if_neg (not_le.mpr hcap)]
    show (lookupConn (st.connections ++ [(newId, { socket := sock, ipAddress := ip, userAgent := ua, connected := now, lastActivity := now, isAuthenticated := !st.authRequired, clientInfo := [], stats := {} })]) newId).map Connection.isAuthenticated = some (!st.authRequired)
    rw [lookupConn_append, hfresh]
    simp [lookupConn]
  · intro cid ty d now
    exact authPres_sendMessage st cid ty d now
  · intro cid
    exact authPres_removeConnection st cid
  · intro now
    exact authPres_pingConnections st now
  · intro cid raw now st2 outs heval
    exact handleMessage_auth_transition st cid raw now st2 outs heval
  · intro _ hall cid raw now st2 outs heval id c c2 hcid hcid2
    have h5 := handleMessage_auth_transition st cid raw now st2 outs heval id c c2 hcid hcid2
    have hct : c.isAuthenticated = true := hall id c hcid
    rw [hct]
    exact h5.1 hct

/-- Witness for the amended C3: a fresh connection in the auth-free
sample state is born with the negated authRequired flag. -/
theorem c3_auth_flag_witness :
    (lookupConn (addConnection cmC3 {} "ip" "ua" 0 1).1.connections 1).map
      Connection.isAuthenticated = some (!cmC3.authRequired) :=
  (c3_auth_flag cmC3).1 {} "ip" "ua" 0 1 rfl (by decide)

/-- Witness for C4 at an auth-required state and a parsed echo
envelope. -/
theorem c4_auth_gate_witness :
    (isAuthType ((Json.obj [("type", Json.str "echo")]).getField "type") = false →
      handleMessage cmC4 1 rawC4 11 =
        some (incErrors (sendError cmC4 1 errUnauthorized "Authentication required" 11).1 1,
              [Out.send 1 (createMessage cmC4.protoVersion "system.error"
                (errorData errUnauthorized "Authentication required") 11)])) ∧
    ((Json.obj [("type", Json.str "echo")]).getField "type" = some (Json.str "system.auth") →
      ∃ st2 outs, handleMessage cmC4 1 rawC4 11 = some (st2, outs) ∧
        (lookupConn st2.connections 1).map Connection.isAuthenticated = some true) :=
  c4_auth_gate cmC4 1 ({ isAuthenticated := false } : Connection) rawC4
    (Json.obj [("type", Json.str "echo")]) 11 rfl rfl rfl rfl rfl

end MCP
